import Mathlib

/-!
# AHRSComms module: `flight/Modules/AHRSComms/ahrs_comms.c`

A shallow embedding of the two functions of the module:

* `AHRSCommsInitialize` (lines 72-84), the start-up hook;
* `ahrscommsTask` (lines 89-126), the module thread: one alarm write at
  start-up followed by an endless loop.  The loop body is `ahrscommsTask_loop`;
  the thread run for a finite number of iterations is `ahrscommsTask`.

Everything the thread calls lives outside the file (alarm library, UAVObject
accessors, AHRS transport, FreeRTOS).  What such a call returns in one
iteration is an input of that iteration (`CycleEnv`); what it does to the
state the module is concerned with is modelled on `TaskState`; every call is
also appended to a trace.
-/

namespace AHRSComms

/-! ## Data model -/

/-- Modelled from the spec: the severities of `systemalarms.h` (header absent), which
the data model gives as OK, WARNING and CRITICAL. -/
inductive AlarmLevel where
  | OK
  | WARNING
  | CRITICAL
  deriving DecidableEq, Repr

/-- Modelled from the spec: width in bits of the transport counters and of the counter
fields of the published record; both declarations (`ahrs_spi_comm.h`,
`ahrsstatus.h`) are absent and the data model gives 32-bit counts for both. -/
def counterBits : Nat := 32

/-- Conversion of a value to the unsigned type of a counter field, as done by a
C assignment to that field. -/
def toCounter (v : Nat) : Nat := v % 2 ^ counterBits

/-- Counters of one end of the link (`stat.remote`, `stat.local`). -/
structure AhrsEndStatus where
  kickStarts : Nat
  crcErrors : Nat
  retries : Nat
  invalidPacket : Nat
  deriving DecidableEq, Repr

/-- The value returned by `AhrsGetStatus()`; `loc` is the member `local`
(a reserved word here). -/
structure AhrsCommStatus where
  linkOk : Bool
  remote : AhrsEndStatus
  loc : AhrsEndStatus
  deriving DecidableEq, Repr

/-- Every counter of one end is a value of its 32-bit type. -/
def AhrsEndStatus.InRange (c : AhrsEndStatus) : Prop :=
  c.kickStarts < 2 ^ counterBits ∧ c.crcErrors < 2 ^ counterBits ∧
    c.retries < 2 ^ counterBits ∧ c.invalidPacket < 2 ^ counterBits

/-- The snapshot is a value of its C type: all eight counters are 32-bit values. -/
def AhrsCommStatus.InRange (s : AhrsCommStatus) : Prop :=
  s.remote.InRange ∧ s.loc.InRange

/-- Component-wise order on the counters of one end. -/
def AhrsEndStatus.le (a b : AhrsEndStatus) : Prop :=
  a.kickStarts ≤ b.kickStarts ∧ a.crcErrors ≤ b.crcErrors ∧
    a.retries ≤ b.retries ∧ a.invalidPacket ≤ b.invalidPacket

/-- Component-wise order on the counters of two snapshots. -/
def AhrsCommStatus.countersLe (a b : AhrsCommStatus) : Prop :=
  a.remote.le b.remote ∧ a.loc.le b.loc

/-- The `AhrsStatus` object data.  The eight members written by the thread are
explicit; the members the thread never names are declared in the absent
`ahrsstatus.h` and are kept together in `other`, of a parameter type. -/
structure AhrsStatusData (ρ : Type) where
  LinkRunning : Bool
  AhrsKickstarts : Nat
  AhrsCrcErrors : Nat
  AhrsRetries : Nat
  AhrsInvalidPackets : Nat
  OpCrcErrors : Nat
  OpRetries : Nat
  OpInvalidPackets : Nat
  other : ρ
  deriving DecidableEq, Repr

/-- The `AHRSSettings` object data; `UpdatePeriod` (milliseconds) is the only
member the thread reads. -/
structure AHRSSettingsData where
  UpdatePeriod : Nat
  deriving DecidableEq, Repr

/-- Constants of the FreeRTOS port, absent from the file: the value of the
`portTICK_RATE_MS` constant and the width in bits of `portTickType`. -/
structure PortConfig where
  portTICK_RATE_MS : Nat
  tickBits : Nat
  deriving DecidableEq, Repr

/-- One call made by the thread, with the arguments that vary.  The alarm key
is always `SYSTEMALARMS_ALARM_AHRSCOMMS` and the watchdog flag always
`PIOS_WDG_AHRS`. -/
inductive Call (ρ : Type) where
  | PIOS_WDG_UpdateFlag
  | AHRSSettingsGet
  | AhrsSendObjects
  | AhrsGetStatus
  | AlarmsClear
  | AlarmsSet (severity : AlarmLevel)
  | AhrsStatusGet
  | AhrsStatusSet (sData : AhrsStatusData ρ)
  | vTaskDelayUntil (previousWakeTime : Option Nat) (timeIncrement : Nat)
  deriving DecidableEq, Repr

/-- What the thread owns or writes.
* `alarm`: the `AHRSCOMMS` entry of the alarm table;
* `ahrsStatus`: the `AhrsStatus` object as last left by the thread;
* `lastSysTime`: the local `portTickType lastSysTime`; `none` is the
  indeterminate content of an automatic variable that was never assigned;
* `trace`: the calls made so far, oldest first. -/
structure TaskState (ρ : Type) where
  alarm : AlarmLevel
  ahrsStatus : AhrsStatusData ρ
  lastSysTime : Option Nat
  trace : List (Call ρ)
  deriving DecidableEq, Repr

/-- What the collaborators hand back in one iteration:
* `settings`: filled in by `AHRSSettingsGet`;
* `sendResult`: whatever `AhrsSendObjects()` returns (the call is a statement,
  its value is dropped);
* `stat`: returned by `AhrsGetStatus()`;
* `stored`: filled in by `AhrsStatusGet`, the content of the `AhrsStatus`
  object at that moment (the transport and other tasks write it too). -/
structure CycleEnv (ρ : Type) where
  settings : AHRSSettingsData
  sendResult : Int
  stat : AhrsCommStatus
  stored : AhrsStatusData ρ
  deriving DecidableEq, Repr

/-! ## Collaborators -/

/-- Append one call to the trace. -/
def TaskState.log {ρ : Type} (st : TaskState ρ) (c : Call ρ) : TaskState ρ :=
  { st with trace := st.trace ++ [c] }

/-- Modelled from the spec: `AlarmsSet` of the alarm library (absent), the alarm
registry write `setAlarm(key, level)`: the entry of the key takes the level. -/
def AlarmsSet {ρ : Type} (st : TaskState ρ) (severity : AlarmLevel) : TaskState ρ :=
  { st with alarm := severity, trace := st.trace ++ [Call.AlarmsSet severity] }

/-- Modelled from the spec: `AlarmsClear` of the alarm library (absent), the alarm
registry write `clearAlarm(key)`, which leaves the entry at OK. -/
def AlarmsClear {ρ : Type} (st : TaskState ρ) : TaskState ρ :=
  { st with alarm := AlarmLevel.OK, trace := st.trace ++ [Call.AlarmsClear] }

/-- Modelled from the spec: `vTaskDelayUntil` of FreeRTOS (absent): the task sleeps until
the absolute deadline `*pxPreviousWakeTime + xTimeIncrement`, computed in
`portTickType`, and that deadline is stored back in `*pxPreviousWakeTime`.
The result is the deadline; it is `none` when the reference time is
indeterminate. -/
def vTaskDelayUntil (cfg : PortConfig) (pxPreviousWakeTime : Option Nat)
    (xTimeIncrement : Nat) : Option Nat :=
  pxPreviousWakeTime.map fun t => (t + xTimeIncrement) % 2 ^ cfg.tickBits

/-! ## `AHRSCommsInitialize` -/

/-- What the calls of `AHRSCommsInitialize` return.  For `xTaskCreate`, FreeRTOS
returns `pdPASS` (1) when the task was created and
`errCOULD_NOT_ALLOCATE_REQUIRED_MEMORY` (-1) when it was not. -/
structure InitEnv where
  statusInit : Int
  calibrationInit : Int
  attitudeRawInit : Int
  taskCreate : Int
  taskMonitorAdd : Int
  wdgRegisterFlag : Bool
  deriving DecidableEq, Repr

/-- The calls of `AHRSCommsInitialize`. -/
inductive InitCall where
  | AHRSStatusInitialize
  | AHRSCalibrationInitialize
  | AttitudeRawInitialize
  | xTaskCreate
  | TaskMonitorAdd
  | PIOS_WDG_RegisterFlag
  deriving DecidableEq, Repr

/-- Lines 72-84.  Six calls, each a plain statement whose value is dropped, then
`return 0;`.  The result is the returned `int32_t` and the calls made. -/
def AHRSCommsInitialize (_env : InitEnv) : Int × List InitCall :=
  (0,
    [ InitCall.AHRSStatusInitialize,
      InitCall.AHRSCalibrationInitialize,
      InitCall.AttitudeRawInitialize,
      InitCall.xTaskCreate,
      InitCall.TaskMonitorAdd,
      InitCall.PIOS_WDG_RegisterFlag ])

/-! ## `ahrscommsTask` -/

/-- Lines 91-93: the declaration `portTickType lastSysTime;` without initialiser
and the call `AlarmsSet(SYSTEMALARMS_ALARM_AHRSCOMMS, SYSTEMALARMS_ALARM_CRITICAL)`.
`alarm0` and `status0` are the alarm entry and the `AhrsStatus` object found
when the thread starts. -/
def ahrscommsTask_start {ρ : Type} (alarm0 : AlarmLevel) (status0 : AhrsStatusData ρ) :
    TaskState ρ :=
  AlarmsSet
    { alarm := alarm0, ahrsStatus := status0, lastSysTime := none, trace := [] }
    AlarmLevel.CRITICAL

/-- Lines 109-119: `sData` as read by `AhrsStatusGet`, then the eight
assignments from `stat`. -/
def fillStatus {ρ : Type} (sData : AhrsStatusData ρ) (stat : AhrsCommStatus) :
    AhrsStatusData ρ :=
  { sData with
    LinkRunning := stat.linkOk
    AhrsKickstarts := toCounter stat.remote.kickStarts
    AhrsCrcErrors := toCounter stat.remote.crcErrors
    AhrsRetries := toCounter stat.remote.retries
    AhrsInvalidPackets := toCounter stat.remote.invalidPacket
    OpCrcErrors := toCounter stat.loc.crcErrors
    OpRetries := toCounter stat.loc.retries
    OpInvalidPackets := toCounter stat.loc.invalidPacket }

/-- Lines 97-123: one iteration of `while (1)`. -/
def ahrscommsTask_loop {ρ : Type} (cfg : PortConfig) (env : CycleEnv ρ)
    (st : TaskState ρ) : TaskState ρ :=
  -- PIOS_WDG_UpdateFlag(PIOS_WDG_AHRS);
  let st := st.log Call.PIOS_WDG_UpdateFlag
  -- AHRSSettingsData settings; AHRSSettingsGet(&settings);
  let settings := env.settings
  let st := st.log Call.AHRSSettingsGet
  -- AhrsSendObjects();
  let st := st.log Call.AhrsSendObjects
  -- AhrsCommStatus stat = AhrsGetStatus();
  let stat := env.stat
  let st := st.log Call.AhrsGetStatus
  -- if (stat.linkOk) AlarmsClear(..) else AlarmsSet(.., WARNING)
  let st := if stat.linkOk then AlarmsClear st else AlarmsSet st AlarmLevel.WARNING
  -- AhrsStatusData sData; AhrsStatusGet(&sData);
  let sData := env.stored
  let st := st.log Call.AhrsStatusGet
  -- sData.LinkRunning = stat.linkOk; ... sData.OpInvalidPackets = stat.local.invalidPacket;
  let sData := fillStatus sData stat
  -- AhrsStatusSet(&sData);
  let st := { st with ahrsStatus := sData, trace := st.trace ++ [Call.AhrsStatusSet sData] }
  -- vTaskDelayUntil(&lastSysTime, settings.UpdatePeriod / portTICK_RATE_MS);
  let xTimeIncrement := (settings.UpdatePeriod / cfg.portTICK_RATE_MS) % 2 ^ cfg.tickBits
  { st with
    lastSysTime := vTaskDelayUntil cfg st.lastSysTime xTimeIncrement
    trace := st.trace ++ [Call.vTaskDelayUntil st.lastSysTime xTimeIncrement] }

/-- The thread run for as many iterations as there are entries in `envs`:
start-up, then the loop body once per entry, in order. -/
def ahrscommsTask {ρ : Type} (cfg : PortConfig) (alarm0 : AlarmLevel)
    (status0 : AhrsStatusData ρ) (envs : List (CycleEnv ρ)) : TaskState ρ :=
  envs.foldl (fun st env => ahrscommsTask_loop cfg env st) (ahrscommsTask_start alarm0 status0)

/-- The calls made by the last iteration only: the trace after the iteration
without the trace before it. -/
def cycleCalls {ρ : Type} (cfg : PortConfig) (env : CycleEnv ρ) (st : TaskState ρ) :
    List (Call ρ) :=
  (ahrscommsTask_loop cfg env st).trace.drop st.trace.length

/-- The eight mirrored members of a record are those of a snapshot. -/
def Mirrors {ρ : Type} (r : AhrsStatusData ρ) (s : AhrsCommStatus) : Prop :=
  r.LinkRunning = s.linkOk ∧
    r.AhrsKickstarts = s.remote.kickStarts ∧
    r.AhrsCrcErrors = s.remote.crcErrors ∧
    r.AhrsRetries = s.remote.retries ∧
    r.AhrsInvalidPackets = s.remote.invalidPacket ∧
    r.OpCrcErrors = s.loc.crcErrors ∧
    r.OpRetries = s.loc.retries ∧
    r.OpInvalidPackets = s.loc.invalidPacket

/-- The record passed to `AhrsStatusSet` in an iteration, read off the trace of
that iteration. -/
def publishedIn {ρ : Type} (calls : List (Call ρ)) : Option (AhrsStatusData ρ) :=
  calls.findSome? fun c =>
    match c with
    | Call.AhrsStatusSet r => some r
    | _ => none

/-- The `vTaskDelayUntil` call of an iteration, read off the trace of that
iteration: reference time and increment. -/
def delayIn {ρ : Type} (calls : List (Call ρ)) : Option (Option Nat × Nat) :=
  calls.findSome? fun c =>
    match c with
    | Call.vTaskDelayUntil t inc => some (t, inc)
    | _ => none

/-! ## Sample inputs -/

/-- All counters of one end at zero. -/
def zeroEnd : AhrsEndStatus :=
  { kickStarts := 0, crcErrors := 0, retries := 0, invalidPacket := 0 }

/-- A record with every mirrored member cleared and no further member. -/
def blankStatus : AhrsStatusData Unit :=
  { LinkRunning := false, AhrsKickstarts := 0, AhrsCrcErrors := 0, AhrsRetries := 0,
    AhrsInvalidPackets := 0, OpCrcErrors := 0, OpRetries := 0, OpInvalidPackets := 0,
    other := () }

/-- Link down, all counters zero, 10 ms period. -/
def envLinkDown : CycleEnv Unit :=
  { settings := { UpdatePeriod := 10 }, sendResult := 0,
    stat := { linkOk := false, remote := zeroEnd, loc := zeroEnd }, stored := blankStatus }

/-- Link up after one remote kickstart, 10 ms period. -/
def envLinkUp : CycleEnv Unit :=
  { settings := { UpdatePeriod := 10 }, sendResult := 0,
    stat := { linkOk := true, remote := { zeroEnd with kickStarts := 1 }, loc := zeroEnd },
    stored := blankStatus }

/-- Link up with three CRC errors counted at the remote end. -/
def envCrc3 : CycleEnv Unit :=
  { settings := { UpdatePeriod := 10 }, sendResult := 0,
    stat := { linkOk := true, remote := { zeroEnd with crcErrors := 3 }, loc := zeroEnd },
    stored := blankStatus }

/-- Link still up, seven CRC errors counted at the remote end, another period and
another result of the exchange. -/
def envCrc7 : CycleEnv Unit :=
  { settings := { UpdatePeriod := 50 }, sendResult := -1,
    stat := { linkOk := true, remote := { zeroEnd with crcErrors := 7 }, loc := zeroEnd },
    stored := blankStatus }

/-- The task could not be created: `xTaskCreate` returns
`errCOULD_NOT_ALLOCATE_REQUIRED_MEMORY`; every other call succeeds. -/
def taskCreateFails : InitEnv :=
  { statusInit := 0, calibrationInit := 0, attitudeRawInit := 0, taskCreate := -1,
    taskMonitorAdd := 0, wdgRegisterFlag := true }

/-- A port with a 1 ms tick and 32-bit tick counts. -/
def port1ms : PortConfig := { portTICK_RATE_MS := 1, tickBits := 32 }

/-! ## Basic facts about one iteration -/

theorem loop_alarm {ρ : Type} (cfg : PortConfig) (env : CycleEnv ρ) (st : TaskState ρ) :
    (ahrscommsTask_loop cfg env st).alarm =
      if env.stat.linkOk then AlarmLevel.OK else AlarmLevel.WARNING := by
  unfold ahrscommsTask_loop
  cases h : env.stat.linkOk <;> simp [AlarmsClear, AlarmsSet, TaskState.log, h]

theorem loop_ahrsStatus {ρ : Type} (cfg : PortConfig) (env : CycleEnv ρ) (st : TaskState ρ) :
    (ahrscommsTask_loop cfg env st).ahrsStatus = fillStatus env.stored env.stat := by
  unfold ahrscommsTask_loop
  cases h : env.stat.linkOk <;> simp [AlarmsClear, AlarmsSet, TaskState.log, h]

theorem task_snoc {ρ : Type} (cfg : PortConfig) (alarm0 : AlarmLevel)
    (status0 : AhrsStatusData ρ) (pre : List (CycleEnv ρ)) (last : CycleEnv ρ) :
    ahrscommsTask cfg alarm0 status0 (pre ++ [last]) =
      ahrscommsTask_loop cfg last (ahrscommsTask cfg alarm0 status0 pre) := by
  simp [ahrscommsTask, List.foldl_append]

theorem loop_trace {ρ : Type} (cfg : PortConfig) (env : CycleEnv ρ) (st : TaskState ρ) :
    (ahrscommsTask_loop cfg env st).trace =
      st.trace ++
        [ Call.PIOS_WDG_UpdateFlag, Call.AHRSSettingsGet, Call.AhrsSendObjects,
          Call.AhrsGetStatus,
          if env.stat.linkOk then Call.AlarmsClear else Call.AlarmsSet AlarmLevel.WARNING,
          Call.AhrsStatusGet,
          Call.AhrsStatusSet (fillStatus env.stored env.stat),
          Call.vTaskDelayUntil st.lastSysTime
            ((env.settings.UpdatePeriod / cfg.portTICK_RATE_MS) % 2 ^ cfg.tickBits) ] := by
  unfold ahrscommsTask_loop
  cases h : env.stat.linkOk <;> simp [AlarmsClear, AlarmsSet, TaskState.log, h]

theorem cycleCalls_eq {ρ : Type} (cfg : PortConfig) (env : CycleEnv ρ) (st : TaskState ρ) :
    cycleCalls cfg env st =
      [ Call.PIOS_WDG_UpdateFlag, Call.AHRSSettingsGet, Call.AhrsSendObjects,
        Call.AhrsGetStatus,
        if env.stat.linkOk then Call.AlarmsClear else Call.AlarmsSet AlarmLevel.WARNING,
        Call.AhrsStatusGet,
        Call.AhrsStatusSet (fillStatus env.stored env.stat),
        Call.vTaskDelayUntil st.lastSysTime
          ((env.settings.UpdatePeriod / cfg.portTICK_RATE_MS) % 2 ^ cfg.tickBits) ] := by
  unfold cycleCalls
  rw [loop_trace]
  exact List.drop_left _ _

theorem publishedIn_cycle {ρ : Type} (cfg : PortConfig) (env : CycleEnv ρ) (st : TaskState ρ) :
    publishedIn (cycleCalls cfg env st) = some (fillStatus env.stored env.stat) := by
  rw [cycleCalls_eq]
  cases h : env.stat.linkOk <;> simp [publishedIn, List.findSome?]

theorem delayIn_cycle {ρ : Type} (cfg : PortConfig) (env : CycleEnv ρ) (st : TaskState ρ) :
    delayIn (cycleCalls cfg env st) =
      some (st.lastSysTime,
        (env.settings.UpdatePeriod / cfg.portTICK_RATE_MS) % 2 ^ cfg.tickBits) := by
  rw [cycleCalls_eq]
  cases h : env.stat.linkOk <;> simp [delayIn, List.findSome?]

theorem toCounter_of_lt {v : Nat} (h : v < 2 ^ counterBits) : toCounter v = v :=
  Nat.mod_eq_of_lt h

theorem fillStatus_mirrors {ρ : Type} (r : AhrsStatusData ρ) (s : AhrsCommStatus)
    (h : s.InRange) : Mirrors (fillStatus r s) s := by
  obtain ⟨⟨h1, h2, h3, h4⟩, ⟨_, h6, h7, h8⟩⟩ := h
  simp [Mirrors, fillStatus, toCounter_of_lt, h1, h2, h3, h4, h6, h7, h8]

theorem lastSysTime_indeterminate {ρ : Type} (cfg : PortConfig) (alarm0 : AlarmLevel)
    (status0 : AhrsStatusData ρ) (envs : List (CycleEnv ρ)) :
    (ahrscommsTask cfg alarm0 status0 envs).lastSysTime = none := by
  induction envs using List.reverseRecOn with
  | nil => rfl
  | append_singleton pre last ih =>
    rw [task_snoc]
    unfold ahrscommsTask_loop
    cases h : last.stat.linkOk <;>
      simp [AlarmsClear, AlarmsSet, TaskState.log, h, ih, vTaskDelayUntil]

/-! ## Claims -/

/-- C1. With no snapshot processed the alarm is CRITICAL; after any non-empty
sequence of snapshots it is OK exactly when the last one has `linkOk` set and
WARNING exactly when it has not; a first cycle with the link down and all
counters at zero takes the alarm from CRITICAL to WARNING. -/
theorem alarm_follows_last_snapshot :
    (∀ (ρ : Type) (cfg : PortConfig) (alarm0 : AlarmLevel) (status0 : AhrsStatusData ρ),
        (ahrscommsTask cfg alarm0 status0 []).alarm = AlarmLevel.CRITICAL) ∧
    (∀ (ρ : Type) (cfg : PortConfig) (alarm0 : AlarmLevel) (status0 : AhrsStatusData ρ)
        (pre : List (CycleEnv ρ)) (last : CycleEnv ρ),
        ((ahrscommsTask cfg alarm0 status0 (pre ++ [last])).alarm = AlarmLevel.OK ↔
            last.stat.linkOk = true) ∧
        ((ahrscommsTask cfg alarm0 status0 (pre ++ [last])).alarm = AlarmLevel.WARNING ↔
            last.stat.linkOk = false)) ∧
    ((ahrscommsTask port1ms AlarmLevel.OK blankStatus []).alarm = AlarmLevel.CRITICAL ∧
      (ahrscommsTask port1ms AlarmLevel.OK blankStatus [envLinkDown]).alarm =
        AlarmLevel.WARNING) := by
  refine ⟨?_, ?_, ?_, ?_⟩
  · intro ρ cfg alarm0 status0
    rfl
  · intro ρ cfg alarm0 status0 pre last
    rw [task_snoc, loop_alarm]
    cases last.stat.linkOk <;> simp
  · rfl
  · rfl

/-- C2. In any iteration, whatever the state left by the earlier ones, the record
passed to `AhrsStatusSet` has its eight mirrored members equal to the members
of the snapshot `AhrsGetStatus` returned in that same iteration, and it is the
record left in the `AhrsStatus` object. -/
theorem published_record_copies_snapshot {ρ : Type} (cfg : PortConfig) (env : CycleEnv ρ)
    (st : TaskState ρ) (h : env.stat.InRange) :
    ∃ r : AhrsStatusData ρ,
      publishedIn (cycleCalls cfg env st) = some r ∧
      (ahrscommsTask_loop cfg env st).ahrsStatus = r ∧
      r.LinkRunning = env.stat.linkOk ∧
      r.AhrsKickstarts = env.stat.remote.kickStarts ∧
      r.AhrsCrcErrors = env.stat.remote.crcErrors ∧
      r.AhrsRetries = env.stat.remote.retries ∧
      r.AhrsInvalidPackets = env.stat.remote.invalidPacket ∧
      r.OpCrcErrors = env.stat.loc.crcErrors ∧
      r.OpRetries = env.stat.loc.retries ∧
      r.OpInvalidPackets = env.stat.loc.invalidPacket :=
  ⟨fillStatus env.stored env.stat, publishedIn_cycle cfg env st, loop_ahrsStatus cfg env st,
    fillStatus_mirrors env.stored env.stat h⟩

/-- Witness of C2: in a cycle that follows a link-down cycle, a snapshot with
`linkOk` set and one remote kickstart publishes `LinkRunning = true` and
`AhrsKickstarts = 1`. -/
theorem published_record_copies_snapshot_witness :
    envLinkUp.stat.InRange ∧
    ∃ r : AhrsStatusData Unit,
      publishedIn (cycleCalls port1ms envLinkUp
        (ahrscommsTask port1ms AlarmLevel.OK blankStatus [envLinkDown])) = some r ∧
      r.LinkRunning = true ∧ r.AhrsKickstarts = 1 := by
  have h : envLinkUp.stat.InRange := by
    simp [AhrsCommStatus.InRange, AhrsEndStatus.InRange, envLinkUp, zeroEnd, counterBits]
  obtain ⟨r, hr, _, h1, h2, _⟩ :=
    published_record_copies_snapshot port1ms envLinkUp
      (ahrscommsTask port1ms AlarmLevel.OK blankStatus [envLinkDown]) h
  exact ⟨h, r, hr, h1, h2⟩

/-- C3. Whatever the alarm before an iteration and whatever the snapshot, the
alarm after the iteration is WARNING or OK; hence after one iteration or more
the alarm is not CRITICAL, in particular when the link is down in every later
iteration, where it is WARNING. -/
theorem loop_never_sets_critical :
    (∀ (ρ : Type) (cfg : PortConfig) (env : CycleEnv ρ) (st : TaskState ρ),
        (ahrscommsTask_loop cfg env st).alarm = AlarmLevel.WARNING ∨
          (ahrscommsTask_loop cfg env st).alarm = AlarmLevel.OK) ∧
    (∀ (ρ : Type) (cfg : PortConfig) (alarm0 : AlarmLevel) (status0 : AhrsStatusData ρ)
        (pre : List (CycleEnv ρ)) (last : CycleEnv ρ),
        (ahrscommsTask cfg alarm0 status0 (pre ++ [last])).alarm ≠ AlarmLevel.CRITICAL) ∧
    (∀ (first : CycleEnv Unit) (n : Nat),
        (ahrscommsTask port1ms AlarmLevel.OK blankStatus
          (first :: List.replicate (n + 1) envLinkDown)).alarm = AlarmLevel.WARNING) := by
  refine ⟨?_, ?_, ?_⟩
  · intro ρ cfg env st
    rw [loop_alarm]
    cases env.stat.linkOk <;> simp
  · intro ρ cfg alarm0 status0 pre last
    rw [task_snoc, loop_alarm]
    cases last.stat.linkOk <;> simp
  · intro first n
    have hl : first :: List.replicate (n + 1) envLinkDown =
        (first :: List.replicate n envLinkDown) ++ [envLinkDown] := by
      rw [List.replicate_succ', List.cons_append]
    rw [hl, task_snoc, loop_alarm]
    rfl

/-- C4. Two iterations whose snapshots agree on `linkOk` leave the same alarm,
whatever the states before them, the counters, the settings read, the result
of the exchange and the port constants; and when `linkOk` is set in both, the
alarm is OK after the first and still OK after the second run right after it. -/
theorem alarm_depends_only_on_linkOk {ρ : Type} (cfg1 cfg2 : PortConfig)
    (e1 e2 : CycleEnv ρ) (s1 s2 : TaskState ρ) (h : e1.stat.linkOk = e2.stat.linkOk) :
    (ahrscommsTask_loop cfg1 e1 s1).alarm = (ahrscommsTask_loop cfg2 e2 s2).alarm ∧
    (e1.stat.linkOk = true →
      (ahrscommsTask_loop cfg1 e1 s1).alarm = AlarmLevel.OK ∧
      (ahrscommsTask_loop cfg1 e2 (ahrscommsTask_loop cfg1 e1 s1)).alarm = AlarmLevel.OK) := by
  refine ⟨?_, ?_⟩
  · rw [loop_alarm, loop_alarm, h]
  · intro ht
    rw [loop_alarm, loop_alarm, ← h, ht]
    simp

/-- Witness of C4: the remote CRC error count goes from 3 to 7 between two cycles
with the link up (and the period and the result of the exchange change too);
the alarm is OK after both. -/
theorem alarm_depends_only_on_linkOk_witness :
    envCrc3.stat.linkOk = envCrc7.stat.linkOk ∧
    envCrc3.stat.remote.crcErrors < envCrc7.stat.remote.crcErrors ∧
    (ahrscommsTask_loop port1ms envCrc3 (ahrscommsTask_start AlarmLevel.OK blankStatus)).alarm =
      AlarmLevel.OK ∧
    (ahrscommsTask_loop port1ms envCrc7
      (ahrscommsTask_loop port1ms envCrc3
        (ahrscommsTask_start AlarmLevel.OK blankStatus))).alarm = AlarmLevel.OK :=
  ⟨rfl, by decide,
    (alarm_depends_only_on_linkOk port1ms port1ms envCrc3 envCrc7
      (ahrscommsTask_start AlarmLevel.OK blankStatus)
      (ahrscommsTask_start AlarmLevel.OK blankStatus) rfl).2 rfl⟩

/-- C5, as stated, fails before the first cycle completes: the thread has
started, `AhrsGetStatus` has returned nothing yet, and the `AhrsStatus` object
holds what it held at start-up, so no returned snapshot is mirrored by it. -/
theorem record_before_first_cycle_mirrors_no_snapshot :
    (ahrscommsTask port1ms AlarmLevel.OK blankStatus []).ahrsStatus = blankStatus ∧
    ¬ ∃ s ∈ ([] : List (CycleEnv Unit)).map CycleEnv.stat,
        Mirrors (ahrscommsTask port1ms AlarmLevel.OK blankStatus []).ahrsStatus s := by
  refine ⟨rfl, ?_⟩
  simp

/-- C5, amended. Once one cycle or more has completed, the eight mirrored members
of the `AhrsStatus` object equal those of a snapshot `AhrsGetStatus` did return,
namely the one of the latest completed cycle, and the remaining members are
those `AhrsStatusGet` read in that cycle; before the first cycle completes the
object is as found at start-up. -/
theorem record_mirrors_latest_snapshot {ρ : Type} (cfg : PortConfig) (alarm0 : AlarmLevel)
    (status0 : AhrsStatusData ρ) (pre : List (CycleEnv ρ)) (last : CycleEnv ρ)
    (h : last.stat.InRange) :
    (∃ s ∈ (pre ++ [last]).map CycleEnv.stat,
        Mirrors (ahrscommsTask cfg alarm0 status0 (pre ++ [last])).ahrsStatus s) ∧
    Mirrors (ahrscommsTask cfg alarm0 status0 (pre ++ [last])).ahrsStatus last.stat ∧
    (ahrscommsTask cfg alarm0 status0 (pre ++ [last])).ahrsStatus.other = last.stored.other ∧
    (ahrscommsTask cfg alarm0 status0 []).ahrsStatus = status0 := by
  have hm : Mirrors (ahrscommsTask cfg alarm0 status0 (pre ++ [last])).ahrsStatus last.stat := by
    rw [task_snoc, loop_ahrsStatus]
    exact fillStatus_mirrors last.stored last.stat h
  refine ⟨⟨last.stat, ?_, hm⟩, hm, ?_, rfl⟩
  · simp
  · rw [task_snoc, loop_ahrsStatus]
    rfl

/-- Witness of C5 amended: after a link-down cycle and a link-up cycle the object
mirrors the snapshot of the link-up cycle. -/
theorem record_mirrors_latest_snapshot_witness :
    envLinkUp.stat.InRange ∧
    Mirrors (ahrscommsTask port1ms AlarmLevel.OK blankStatus
      ([envLinkDown] ++ [envLinkUp])).ahrsStatus envLinkUp.stat := by
  have h : envLinkUp.stat.InRange := by
    simp [AhrsCommStatus.InRange, AhrsEndStatus.InRange, envLinkUp, zeroEnd, counterBits]
  exact ⟨h, (record_mirrors_latest_snapshot port1ms AlarmLevel.OK blankStatus
    [envLinkDown] envLinkUp h).2.1⟩

/-- C6. When the counters of the snapshot of a cycle are all at most those of
the snapshot of the next cycle, each of the seven counter members of the record
published by the first cycle is at most the same member of the record published
by the next one. -/
theorem published_counters_monotone {ρ : Type} (cfg : PortConfig) (e1 e2 : CycleEnv ρ)
    (st : TaskState ρ) (h1 : e1.stat.InRange) (h2 : e2.stat.InRange)
    (hle : e1.stat.countersLe e2.stat) :
    ∃ r1 r2 : AhrsStatusData ρ,
      publishedIn (cycleCalls cfg e1 st) = some r1 ∧
      publishedIn (cycleCalls cfg e2 (ahrscommsTask_loop cfg e1 st)) = some r2 ∧
      r1.AhrsKickstarts ≤ r2.AhrsKickstarts ∧
      r1.AhrsCrcErrors ≤ r2.AhrsCrcErrors ∧
      r1.AhrsRetries ≤ r2.AhrsRetries ∧
      r1.AhrsInvalidPackets ≤ r2.AhrsInvalidPackets ∧
      r1.OpCrcErrors ≤ r2.OpCrcErrors ∧
      r1.OpRetries ≤ r2.OpRetries ∧
      r1.OpInvalidPackets ≤ r2.OpInvalidPackets := by
  refine ⟨fillStatus e1.stored e1.stat, fillStatus e2.stored e2.stat,
    publishedIn_cycle cfg e1 st, publishedIn_cycle cfg e2 _, ?_⟩
  obtain ⟨_, a2, a3, a4, a5, a6, a7, a8⟩ := fillStatus_mirrors e1.stored e1.stat h1
  obtain ⟨_, b2, b3, b4, b5, b6, b7, b8⟩ := fillStatus_mirrors e2.stored e2.stat h2
  obtain ⟨⟨c1, c2, c3, c4⟩, ⟨_, c6, c7, c8⟩⟩ := hle
  rw [a2, a3, a4, a5, a6, a7, a8, b2, b3, b4, b5, b6, b7, b8]
  exact ⟨c1, c2, c3, c4, c6, c7, c8⟩

/-- Witness of C6: the remote CRC error count goes from 3 to 7 between two
consecutive cycles; the published `AhrsCrcErrors` does not decrease. -/
theorem published_counters_monotone_witness :
    envCrc3.stat.InRange ∧ envCrc7.stat.InRange ∧ envCrc3.stat.countersLe envCrc7.stat ∧
    ∃ r1 r2 : AhrsStatusData Unit,
      publishedIn (cycleCalls port1ms envCrc3
        (ahrscommsTask_start AlarmLevel.OK blankStatus)) = some r1 ∧
      publishedIn (cycleCalls port1ms envCrc7
        (ahrscommsTask_loop port1ms envCrc3
          (ahrscommsTask_start AlarmLevel.OK blankStatus))) = some r2 ∧
      r1.AhrsCrcErrors ≤ r2.AhrsCrcErrors := by
  have h1 : envCrc3.stat.InRange := by
    simp [AhrsCommStatus.InRange, AhrsEndStatus.InRange, envCrc3, zeroEnd, counterBits]
  have h2 : envCrc7.stat.InRange := by
    simp [AhrsCommStatus.InRange, AhrsEndStatus.InRange, envCrc7, zeroEnd, counterBits]
  have hle : envCrc3.stat.countersLe envCrc7.stat := by
    simp [AhrsCommStatus.countersLe, AhrsEndStatus.le, envCrc3, envCrc7, zeroEnd]
  obtain ⟨r1, r2, p1, p2, _, q, _⟩ :=
    published_counters_monotone port1ms envCrc3 envCrc7
      (ahrscommsTask_start AlarmLevel.OK blankStatus) h1 h2 hle
  exact ⟨h1, h2, hle, r1, r2, p1, p2, q⟩

/-- C7 at the first cycle: `lastSysTime` is declared without initialiser and
nothing assigns it before the loop, so the first `vTaskDelayUntil` call gets an
indeterminate reference time with the 10-tick increment, its deadline is not a
defined tick value, and the variable is still indeterminate afterwards. -/
theorem first_cycle_delay_reference_indeterminate :
    (ahrscommsTask_start AlarmLevel.OK blankStatus).lastSysTime = none ∧
    delayIn (cycleCalls port1ms envLinkDown (ahrscommsTask_start AlarmLevel.OK blankStatus)) =
      some (none, 10) ∧
    vTaskDelayUntil port1ms
      (ahrscommsTask_start AlarmLevel.OK blankStatus).lastSysTime 10 = none ∧
    (ahrscommsTask port1ms AlarmLevel.OK blankStatus [envLinkDown]).lastSysTime = none := by
  refine ⟨rfl, ?_, rfl, ?_⟩
  · rw [cycleCalls_eq]
    decide
  · exact lastSysTime_indeterminate _ _ _ _

/-- C8 at a failing input: `xTaskCreate` reports that the task could not be
created, and `AHRSCommsInitialize` still returns 0, not -1. -/
theorem AHRSCommsInitialize_returns_zero_on_failure :
    taskCreateFails.taskCreate = -1 ∧
    (AHRSCommsInitialize taskCreateFails).1 = 0 ∧
    (AHRSCommsInitialize taskCreateFails).1 ≠ -1 := by
  decide

/-- C10. The record passed to `AhrsStatusSet` keeps, for every member other than
the eight mirrored ones, the value `AhrsStatusGet` read in that iteration, and
it is the same record whatever the value of `stat.local.kickStarts`. -/
theorem publication_is_read_modify_write :
    ∀ (ρ : Type) (cfg : PortConfig) (env : CycleEnv ρ) (st : TaskState ρ),
      (∃ r : AhrsStatusData ρ,
        publishedIn (cycleCalls cfg env st) = some r ∧ r.other = env.stored.other) ∧
      ∀ k : Nat,
        publishedIn (cycleCalls cfg
          { env with stat := { env.stat with loc := { env.stat.loc with kickStarts := k } } }
          st) = publishedIn (cycleCalls cfg env st) := by
  intro ρ cfg env st
  refine ⟨⟨fillStatus env.stored env.stat, publishedIn_cycle cfg env st, rfl⟩, ?_⟩
  intro k
  rw [publishedIn_cycle, publishedIn_cycle]
  rfl

end AHRSComms
